import Mathlib

/-
Shallow embedding of src/api.py (class EcostressCloudAPI), an ECOSTRESS
cloud-product discovery and download client.  Python naive datetimes are
modelled as natural numbers counting seconds since 0001-01-01 00:00:00
(the proleptic Gregorian calendar, matching Python datetime.toordinal):
ordering of naive datetimes and timedelta arithmetic coincide with the
numeric order and addition on this representation.  Fallible Python code
is modelled in Except PyError.
-/

namespace EcostressCloud

/-- Exceptions a modelled Python call can raise. -/
inductive PyError where
  | valueError
  | typeError
  | indexError
  | metadataMalformed
deriving DecidableEq

/-- Leap-year test of the proleptic Gregorian calendar (calendar.isleap). -/
def isLeap (y : Nat) : Bool :=
  y % 4 = 0 && (y % 100 ≠ 0 || y % 400 = 0)

/-- Number of days in a month (calendar.monthrange's second component). -/
def daysInMonth (y m : Nat) : Nat :=
  if m = 2 then (if isLeap y then 29 else 28)
  else if m = 4 || m = 6 || m = 9 || m = 11 then 30
  else 31

/-- Days from 0001-01-01 to the civil date y-m-d (proleptic Gregorian),
so that 0001-01-01 maps to 0; the standard era/year-of-era computation. -/
def daysFromCivil (y m d : Nat) : Nat :=
  let y1 := if m ≤ 2 then y - 1 else y
  let era := y1 / 400
  let yoe := y1 % 400
  let doy := (153 * (if 2 < m then m - 3 else m + 9) + 2) / 5 + d - 1
  let doe := yoe * 365 + yoe / 4 - yoe / 100 + doy
  era * 146097 + doe - 306

/-- Inverse of daysFromCivil: the civil date (y, m, d) of a day count
measured from 0001-01-01. -/
def civilFromDays (n : Nat) : Nat × Nat × Nat :=
  let z := n + 306
  let era := z / 146097
  let doe := z % 146097
  let yoe := (doe - doe / 1460 + doe / 36524 - doe / 146096) / 365
  let y0 := yoe + era * 400
  let doy := doe - (365 * yoe + yoe / 4 - yoe / 100)
  let mp := (5 * doy + 2) / 153
  let d := doy - (153 * mp + 2) / 5 + 1
  let m := if mp < 10 then mp + 3 else mp - 9
  (if m ≤ 2 then y0 + 1 else y0, m, d)

/-- The Python datetime(y, mo, d, h, mi, s) constructor's value, as seconds
since 0001-01-01 00:00:00. -/
def mkDatetime (y mo d h mi s : Nat) : Nat :=
  daysFromCivil y mo d * 86400 + (h * 3600 + mi * 60 + s)

/-- Validity condition enforced by the Python datetime constructor
(MINYEAR = 1, MAXYEAR = 9999, calendar-valid month/day, clock-valid time). -/
def dtValid (y mo d h mi s : Nat) : Prop :=
  1 ≤ y ∧ y ≤ 9999 ∧ 1 ≤ mo ∧ mo ≤ 12 ∧ 1 ≤ d ∧ d ≤ daysInMonth y mo ∧
    h ≤ 23 ∧ mi ≤ 59 ∧ s ≤ 59

instance (y mo d h mi s : Nat) : Decidable (dtValid y mo d h mi s) := by
  unfold dtValid; infer_instance

/-- The Python datetime constructor: raises ValueError on out-of-range
fields, otherwise yields the datetime. -/
def mkDatetimeChecked (y mo d h mi s : Nat) : Except PyError Nat :=
  if dtValid y mo d h mi s then .ok (mkDatetime y mo d h mi s)
  else .error .valueError

/-- Fixed-width decimal rendering of n (w digits, most significant first,
zero padded), as printf-style %0wd for n < 10^w. -/
def padDigits : Nat → Nat → List Char
  | 0, _ => []
  | w + 1, n => Char.ofNat (48 + n / 10 ^ w) :: padDigits w (n % 10 ^ w)

/-- Zero-padded rendering of a civil date in the %Y.%m.%d pattern. -/
def fmtYMD (c : Nat × Nat × Nat) : String :=
  String.mk (padDigits 4 c.1) ++ "." ++ String.mk (padDigits 2 c.2.1) ++ "." ++
    String.mk (padDigits 2 c.2.2)

/-- The strftime pattern %Y.%m.%d applied to a datetime. -/
def pyStrftimeYMD (t : Nat) : String := fmtYMD (civilFromDays (t / 86400))

/-- Models urllib.parse.urljoin for a base URL ending in a slash and a
relative reference (the only shapes this program joins): concatenation. -/
def pyUrljoin (base rel : String) : String := base ++ rel

/-- Models os.path.join for a relative second component: insert a slash
separator unless the first component already ends in one. -/
def pyPathJoin (a b : String) : String :=
  if a.data.getLast? = some (Char.ofNat 47) then a ++ b else a ++ "/" ++ b

/-- Models os.path.basename: the suffix after the last slash. -/
def pyBasename (s : String) : String :=
  String.mk (s.data.foldl (fun acc c => if c = Char.ofNat 47 then [] else acc ++ [c]) [])

/-- The class constant _BASE_CLOUD_URL. -/
def _BASE_CLOUD_URL : String := "https://e4ftl01.cr.usgs.gov/ECOSTRESS/ECO2CLD.001/"

/-- PROJ_DIR, the repository directory; its concrete value is
environment dependent and irrelevant to every property proved here. -/
def PROJ_DIR : String := "/proj"

/-- The class constant _XML_DIR, the local metadata cache directory. -/
def _XML_DIR : String := pyPathJoin PROJ_DIR "xml_files"

/-- EcostressCloudAPI._create_day_urls: starting from start_date, while the
running datetime is at most end_date, emit the day listing URL for the
running datetime's calendar date and step forward one day (86400 s). -/
def _create_day_urls (start_date end_date : Nat) : List String :=
  if _h : start_date ≤ end_date then
    pyUrljoin _BASE_CLOUD_URL (pyStrftimeYMD start_date ++ "/") ::
      _create_day_urls (start_date + 86400) end_date
  else []
termination_by end_date + 86400 - start_date
decreasing_by omega

/-- Number of iterations the _create_day_urls loop performs. -/
def nSteps (s e : Nat) : Nat := if s ≤ e then (e - s) / 86400 + 1 else 0

/-- The day listing URL of day number d (days since 0001-01-01). -/
def dayUrlOfDay (d : Nat) : String :=
  pyUrljoin _BASE_CLOUD_URL (pyStrftimeYMD (d * 86400) ++ "/")

theorem pyStrftimeYMD_day (t : Nat) : pyStrftimeYMD t = pyStrftimeYMD (t / 86400 * 86400) := by
  unfold pyStrftimeYMD
  congr 2
  omega

/-- Closed form of the _create_day_urls loop: one URL per iteration, the
k-th (0-based) for the calendar date k days after start_date's date. -/
theorem createDayUrls_eq (s e : Nat) :
    _create_day_urls s e =
      (List.range (nSteps s e)).map (fun k => dayUrlOfDay (s / 86400 + k)) := by
  rw [_create_day_urls]
  split
  case isTrue h =>
    rw [createDayUrls_eq (s + 86400) e]
    by_cases h2 : s + 86400 ≤ e
    · have hn : nSteps s e = nSteps (s + 86400) e + 1 := by
        unfold nSteps
        rw [if_pos h, if_pos h2]
        omega
      rw [hn, List.range_succ_eq_map, List.map_cons, List.map_map]
      have hhead : dayUrlOfDay (s / 86400 + 0) =
          pyUrljoin _BASE_CLOUD_URL (pyStrftimeYMD s ++ "/") := by
        unfold dayUrlOfDay
        rw [Nat.add_zero, ← pyStrftimeYMD_day]
      have htail : ((fun k => dayUrlOfDay (s / 86400 + k)) ∘ Nat.succ) =
          (fun k => dayUrlOfDay ((s + 86400) / 86400 + k)) := by
        funext k
        simp only [Function.comp]
        congr 1
        omega
      rw [hhead, htail]
    · have hn1 : nSteps s e = 1 := by unfold nSteps; rw [if_pos h]; omega
      have hn0 : nSteps (s + 86400) e = 0 := by unfold nSteps; rw [if_neg h2]
      rw [hn1, hn0]
      rw [show List.range 1 = [0] from rfl, show List.range 0 = [] from rfl]
      simp only [List.map_nil, List.map_cons]
      have hhead : dayUrlOfDay (s / 86400 + 0) =
          pyUrljoin _BASE_CLOUD_URL (pyStrftimeYMD s ++ "/") := by
        unfold dayUrlOfDay
        rw [Nat.add_zero, ← pyStrftimeYMD_day]
      rw [hhead]
  case isFalse h =>
    unfold nSteps
    simp [h]
termination_by e + 86400 - s
decreasing_by omega

/-- Captured groups of the pattern _file_re, in order of appearance. -/
structure FileNameGroups where
  orbit : Nat
  scene_id : Nat
  year : Nat
  month : Nat
  day : Nat
  hour : Nat
  minute : Nat
  second : Nat
  build_id : Nat
  version : Nat
deriving DecidableEq

/-- Consume an exact literal character sequence, returning the remainder. -/
def readLit : List Char → List Char → Option (List Char)
  | [], cs => some cs
  | l :: ls, c :: cs => if c = l then readLit ls cs else none
  | _ :: _, [] => none

/-- Consume exactly w ASCII digits, returning their decimal value (with
accumulator acc for the digits already consumed) and the remainder. -/
def readDigitsAux (acc : Nat) : Nat → List Char → Option (Nat × List Char)
  | 0, cs => some (acc, cs)
  | w + 1, c :: cs =>
    if c.isDigit then readDigitsAux (acc * 10 + (c.toNat - 48)) w cs else none
  | _ + 1, [] => none

/-- Consume exactly w ASCII digits as a decimal number. -/
def readDigits (w : Nat) (cs : List Char) : Option (Nat × List Char) :=
  readDigitsAux 0 w cs

/-- Models re.match against the instance pattern _file_re (a fixed-width
pattern): anchored at the start of the string; the final dollar matches at
the end of the string or immediately before one trailing newline; the
Python digit class is taken as the ASCII digits 0-9. -/
def matchFileRe (name : String) : Option FileNameGroups := do
  let cs ← readLit "ECOSTRESS_L2_CLOUD_".data name.data
  let (orbit, cs) ← readDigits 5 cs
  let cs ← readLit "_".data cs
  let (scene_id, cs) ← readDigits 3 cs
  let cs ← readLit "_".data cs
  let (year, cs) ← readDigits 4 cs
  let (month, cs) ← readDigits 2 cs
  let (day, cs) ← readDigits 2 cs
  let cs ← readLit "T".data cs
  let (hour, cs) ← readDigits 2 cs
  let (minute, cs) ← readDigits 2 cs
  let (second, cs) ← readDigits 2 cs
  let cs ← readLit "_".data cs
  let (build_id, cs) ← readDigits 4 cs
  let cs ← readLit "_".data cs
  let (version, cs) ← readDigits 2 cs
  let cs ← readLit ".h5".data cs
  if cs = [] ∨ cs = ['\n'] then
    some ⟨orbit, scene_id, year, month, day, hour, minute, second, build_id, version⟩
  else none

/-- EcostressCloudAPI._parse_datetime_from_file_name: re.match against
_file_re; on a match, int() the captured date and time groups and build a
datetime from them (which raises ValueError when a group is out of the
calendar or clock range); on no match, return None. -/
def _parse_datetime_from_file_name (file_name : String) : Except PyError (Option Nat) :=
  match matchFileRe file_name with
  | some g =>
    (mkDatetimeChecked g.year g.month g.day g.hour g.minute g.second).map some
  | none => .ok none

theorem readLit_append (l rest : List Char) : readLit l (l ++ rest) = some rest := by
  induction l with
  | nil => rfl
  | cons c cs ih => simp [readLit, ih]

theorem isDigit_ofNat_digit (d : Nat) (h : d ≤ 9) :
    (Char.ofNat (48 + d)).isDigit = true := by
  interval_cases d <;> decide

theorem toNat_ofNat_digit (d : Nat) (h : d ≤ 9) :
    (Char.ofNat (48 + d)).toNat = 48 + d := by
  interval_cases d <;> decide

theorem readDigitsAux_pad (w : Nat) : ∀ (acc n : Nat) (rest : List Char), n < 10 ^ w →
    readDigitsAux acc w (padDigits w n ++ rest) = some (acc * 10 ^ w + n, rest) := by
  induction w with
  | zero =>
    intro acc n rest h
    interval_cases n
    simp [padDigits, readDigitsAux]
  | succ w ih =>
    intro acc n rest h
    have hP : 0 < 10 ^ w := Nat.pos_pow_of_pos w (by norm_num)
    have hd : n / 10 ^ w ≤ 9 := by
      have h10 : n < 10 * 10 ^ w := by
        have hps : 10 ^ (w + 1) = 10 ^ w * 10 := pow_succ 10 w
        omega
      exact Nat.lt_succ_iff.mp ((Nat.div_lt_iff_lt_mul hP).mpr h10)
    simp only [padDigits, List.cons_append, readDigitsAux, List.append_eq]
    rw [if_pos (isDigit_ofNat_digit _ hd), toNat_ofNat_digit _ hd]
    have hv : 48 + n / 10 ^ w - 48 = n / 10 ^ w := Nat.add_sub_cancel_left 48 (n / 10 ^ w)
    rw [hv, ih _ _ _ (Nat.mod_lt _ hP)]
    have hdm : 10 ^ w * (n / 10 ^ w) + n % 10 ^ w = n := Nat.div_add_mod n (10 ^ w)
    have key : (acc * 10 + n / 10 ^ w) * 10 ^ w + n % 10 ^ w = acc * 10 ^ (w + 1) + n := by
      calc (acc * 10 + n / 10 ^ w) * 10 ^ w + n % 10 ^ w
          = acc * (10 ^ w * 10) + (10 ^ w * (n / 10 ^ w) + n % 10 ^ w) := by ring
        _ = acc * (10 ^ w * 10) + n := by rw [hdm]
        _ = acc * 10 ^ (w + 1) + n := by rw [pow_succ]
    rw [key]

theorem readDigits_pad (w n : Nat) (rest : List Char) (h : n < 10 ^ w) :
    readDigits w (padDigits w n ++ rest) = some (n, rest) := by
  unfold readDigits
  rw [readDigitsAux_pad w 0 n rest h]
  norm_num

theorem bind_readLit {α : Type} (l rest : List Char) (k : List Char → Option α) :
    readLit l (l ++ rest) >>= k = k rest := by
  rw [readLit_append]
  rfl

theorem bind_readDigits {α : Type} (w n : Nat) (rest : List Char) (h : n < 10 ^ w)
    (k : Nat × List Char → Option α) :
    readDigits w (padDigits w n ++ rest) >>= k = k (n, rest) := by
  rw [readDigits_pad _ _ _ h]
  rfl

/-- A filename written exactly in the fixed naming convention
ECOSTRESS_L2_CLOUD_(orbit:5d)_(scene:3d)_(YYYYMMDD)T(HHMMSS)_(build:4d)_(version:2d).h5
with the given zero-padded field values. -/
def mkConventionName (orbit scene y mo d h mi s build ver : Nat) : String :=
  String.mk ("ECOSTRESS_L2_CLOUD_".data ++ padDigits 5 orbit ++ "_".data ++
    padDigits 3 scene ++ "_".data ++ padDigits 4 y ++ padDigits 2 mo ++ padDigits 2 d ++
    "T".data ++ padDigits 2 h ++ padDigits 2 mi ++ padDigits 2 s ++ "_".data ++
    padDigits 4 build ++ "_".data ++ padDigits 2 ver ++ ".h5".data)

set_option maxHeartbeats 1600000 in
theorem matchFileRe_convention (orbit scene y mo d h mi s build ver : Nat)
    (h1 : orbit < 10 ^ 5) (h2 : scene < 10 ^ 3) (h3 : y < 10 ^ 4) (h4 : mo < 10 ^ 2)
    (h5 : d < 10 ^ 2) (h6 : h < 10 ^ 2) (h7 : mi < 10 ^ 2) (h8 : s < 10 ^ 2)
    (h9 : build < 10 ^ 4) (h10 : ver < 10 ^ 2) :
    matchFileRe (mkConventionName orbit scene y mo d h mi s build ver) =
      some ⟨orbit, scene, y, mo, d, h, mi, s, build, ver⟩ := by
  unfold matchFileRe mkConventionName
  simp only [String.data, List.append_assoc]
  rw [bind_readLit]
  try simp only []
  rw [bind_readDigits _ _ _ h1]
  try simp only []
  rw [bind_readLit]
  try simp only []
  rw [bind_readDigits _ _ _ h2]
  try simp only []
  rw [bind_readLit]
  try simp only []
  rw [bind_readDigits _ _ _ h3]
  try simp only []
  rw [bind_readDigits _ _ _ h4]
  try simp only []
  rw [bind_readDigits _ _ _ h5]
  try simp only []
  rw [bind_readLit]
  try simp only []
  rw [bind_readDigits _ _ _ h6]
  try simp only []
  rw [bind_readDigits _ _ _ h7]
  try simp only []
  rw [bind_readDigits _ _ _ h8]
  try simp only []
  rw [bind_readLit]
  try simp only []
  rw [bind_readDigits _ _ _ h9]
  try simp only []
  rw [bind_readLit]
  try simp only []
  rw [bind_readDigits _ _ _ h10]
  try simp only []
  rfl

/-- A corner ring of an axis-aligned rectangle, as shapely Polygon input. -/
abbrev Corners := List (ℚ × ℚ)

/-- Axis-aligned closed rectangle given by its extremes. -/
structure Rect where
  xmin : ℚ
  xmax : ℚ
  ymin : ℚ
  ymax : ℚ
deriving DecidableEq

/-- The bounding rectangle of a corner list (extremes over the corners). -/
def rectOfCorners (ps : Corners) : Rect where
  xmin := (ps.map Prod.fst).foldl min (ps.headD (0, 0)).1
  xmax := (ps.map Prod.fst).foldl max (ps.headD (0, 0)).1
  ymin := (ps.map Prod.snd).foldl min (ps.headD (0, 0)).2
  ymax := (ps.map Prod.snd).foldl max (ps.headD (0, 0)).2

/-- Modelled from the spec: shapely.geometry.Polygon.intersects, the external
geometry call of src line 110, restricted to the axis-aligned rectangles this
program builds; two closed rectangles intersect exactly when they share a
point, the interval-overlap test on each axis (touching edges count). -/
def polyIntersects (p q : Corners) : Bool :=
  let a := rectOfCorners p
  let b := rectOfCorners q
  decide (a.xmin ≤ b.xmax ∧ b.xmin ≤ a.xmax ∧ a.ymin ≤ b.ymax ∧ b.ymin ≤ a.ymax)

/-- Oracle abstracting requests/urllib HTML retrieval: the href values that
retrieve_links returns for a listing page URL. -/
abbrev ListingOracle := String → List String

/-- Oracle abstracting the ElementTree lookup of the cached metadata file:
the (west, north, east, south) BoundingRectangle coordinates parsed from the
document stored at a path, or none when the document lacks them. -/
abbrev CoordsOracle := String → Option (ℚ × ℚ × ℚ × ℚ)

/-- EcostressCloudAPI._parse_bbox_from_xml.  files is the set of paths
present in the local metadata cache directory.  When the cache file exists
the document is parsed with no fetch.  When it is absent the source calls
self.download((xml_url, file_path)): download is the public four-parameter
method (start_date, end_date, bbox, output_dir), so passing one tuple raises
TypeError before any network activity; the intended call was
self._download.  That faulty branch is therefore a TypeError. -/
def _parse_bbox_from_xml (files : List String) (xmlCoords : CoordsOracle)
    (xml_url : String) : Except PyError Corners :=
  let filename := pyBasename xml_url
  let file_path := pyPathJoin _XML_DIR filename
  if files.contains file_path then
    match xmlCoords file_path with
    | some (west, north, east, south) =>
      .ok [(west, north), (east, north), (east, south), (west, south)]
    | none => .error .metadataMalformed
  else .error .typeError

/-- EcostressCloudAPI._overlaps_bbox: index the four coordinates out of
target_bbox (IndexError when too short), build the target rectangle with
corners (minLon, maxLat), (maxLon, maxLat), (maxLon, minLat),
(minLon, minLat), resolve the file rectangle from the metadata document and
test intersection. -/
def _overlaps_bbox (files : List String) (xmlCoords : CoordsOracle)
    (target_bbox : List ℚ) (xml_url : String) : Except PyError Bool :=
  match target_bbox with
  | min_lon :: min_lat :: max_lon :: max_lat :: _ =>
    match _parse_bbox_from_xml files xmlCoords xml_url with
    | .ok file_bbox =>
      .ok (polyIntersects file_bbox
        [(min_lon, max_lat), (max_lon, max_lat), (max_lon, min_lat), (min_lon, min_lat)])
    | .error e => .error e
  | _ => .error .indexError

/-- An axis-aligned bounding box in the [minLon, minLat, maxLon, maxLat]
convention of the spec's data model. -/
structure BoundingBox where
  minLon : ℚ
  minLat : ℚ
  maxLon : ℚ
  maxLat : ℚ
deriving DecidableEq

/-- The corner ring the code builds from a box (src line 108 layout). -/
def bboxToPoly (b : BoundingBox) : Corners :=
  [(b.minLon, b.maxLat), (b.maxLon, b.maxLat), (b.maxLon, b.minLat), (b.minLon, b.minLat)]

/-- The intersection test of two bounding boxes, exactly as the code decides
it: convert both to corner rings and apply the polygon intersection. -/
def intersects (a b : BoundingBox) : Bool := polyIntersects (bboxToPoly a) (bboxToPoly b)

/-- Membership of a point in the closed region of a bounding box. -/
def inRegion (b : BoundingBox) (p : ℚ × ℚ) : Prop :=
  b.minLon ≤ p.1 ∧ p.1 ≤ b.maxLon ∧ b.minLat ≤ p.2 ∧ p.2 ≤ b.maxLat

/-- The degenerate zero-area box holding exactly one point. -/
def pointBox (p : ℚ × ℚ) : BoundingBox := ⟨p.1, p.2, p.1, p.2⟩

/-- Well-formedness of a box: min bounds at most max bounds on both axes. -/
def bboxWF (b : BoundingBox) : Prop := b.minLon ≤ b.maxLon ∧ b.minLat ≤ b.maxLat

theorem rect_bboxToPoly (b : BoundingBox) :
    rectOfCorners (bboxToPoly b) =
      ⟨min b.minLon b.maxLon, max b.minLon b.maxLon,
        min b.minLat b.maxLat, max b.minLat b.maxLat⟩ := by
  unfold rectOfCorners bboxToPoly
  rcases le_total b.minLon b.maxLon with h | h <;>
    rcases le_total b.minLat b.maxLat with h2 | h2 <;>
      simp [min_def, max_def, h, h2]

theorem calendar_sanity :
    civilFromDays (daysFromCivil 2022 1 29) = (2022, 1, 29) ∧
      civilFromDays (daysFromCivil 2022 2 2) = (2022, 2, 2) ∧
      daysFromCivil 2022 2 2 = daysFromCivil 2022 1 29 + 4 ∧
      civilFromDays 0 = (1, 1, 1) := by
  refine ⟨?_, ?_, ?_, ?_⟩ <;> decide

/-- The read loop of EcostressCloudAPI._download over a stream of response
chunks (bytes modelled as List Nat): read a chunk; if truthy (non-empty)
write it and repeat, else break.  The written file content is returned. -/
def readLoop : List (List Nat) → List Nat
  | [] => []
  | c :: rest => if c.isEmpty then [] else c ++ readLoop rest

/-- Oracle abstracting the authenticated urllib response for a data URL: the
successive values returned by response.read(). -/
abbrev NetOracle := String → List (List Nat)

/-- The local output filesystem: downloaded files as path-content pairs. -/
abbrev FileStore := List (String × List Nat)

/-- EcostressCloudAPI._download on a (link, dest) query: when a file at dest
already exists the task returns immediately (no request); otherwise the
response for link is read in the fetch-until-empty loop and written to dest.
Returns the updated store and the list of network requests performed. -/
def _download (st : FileStore) (net : NetOracle) (query : String × String) :
    FileStore × List String :=
  let link := query.1
  let dest := query.2
  if (st.map Prod.fst).contains dest then (st, [])
  else (st ++ [(dest, readLoop (net link))], [link])

/-- One step of the candidate-selection loop in download (src lines 139-143):
resolve the link, parse the timestamp from the file href, and when the
timestamp exists, lies in [start_date, end_date] and the metadata rectangle
overlaps the target box, append the link to the accumulator.  A raising
parse or metadata step propagates. -/
def processFile (files : List String) (xmlCoords : CoordsOracle) (s e : Nat)
    (bbox : List ℚ) (day_url : String) (acc : List String) (file_url : String) :
    Except PyError (List String) :=
  let link := pyUrljoin day_url file_url
  match _parse_datetime_from_file_name file_url with
  | .error err => .error err
  | .ok none => .ok acc
  | .ok (some t) =>
    if s ≤ t ∧ t ≤ e then
      match _overlaps_bbox files xmlCoords bbox (link ++ ".xml") with
      | .error err => .error err
      | .ok b => .ok (if b then acc ++ [link] else acc)
    else .ok acc

/-- The inner loop of download over one day page's hrefs. -/
def processDay (files : List String) (xmlCoords : CoordsOracle) (L : ListingOracle)
    (s e : Nat) (bbox : List ℚ) (acc : List String) (day_url : String) :
    Except PyError (List String) :=
  (L day_url).foldlM (processFile files xmlCoords s e bbox day_url) acc

/-- The selection part of EcostressCloudAPI.download (src lines 135-143):
iterate the day URLs, list each page, filter each href temporally and
spatially, accumulating surviving absolute links in discovery order. -/
def selectLinks (files : List String) (xmlCoords : CoordsOracle) (L : ListingOracle)
    (s e : Nat) (bbox : List ℚ) : Except PyError (List String) :=
  (_create_day_urls s e).foldlM (processDay files xmlCoords L s e bbox) []

/-- EcostressCloudAPI.download (src lines 134-148): select links, pair each
with its local output path, then run _download on every task.  The Python
method returns None; the pair returned here is the observable outcome (final
output file store and the task list built at line 145).  files and dlSt are
the metadata cache and output directory states. -/
def download (files : List String) (xmlCoords : CoordsOracle) (L : ListingOracle)
    (net : NetOracle) (dlSt : FileStore) (s e : Nat) (bbox : List ℚ)
    (output_dir : String) : Except PyError (FileStore × List (String × String)) := do
  let file_links ← selectLinks files xmlCoords L s e bbox
  let file_requests := file_links.map (fun link =>
    (link, pyPathJoin output_dir (pyBasename link)))
  let final := file_requests.foldl (fun acc r => (_download acc net r).1) dlSt
  return (final, file_requests)

theorem foldlM_append_except {α β ε : Type} (f : β → α → Except ε β) (l1 l2 : List α)
    (b : β) :
    (l1 ++ l2).foldlM f b =
      (l1.foldlM f b).bind (fun b2 => l2.foldlM f b2) := by
  induction l1 generalizing b with
  | nil =>
    simp only [List.nil_append, List.foldlM_nil]
    rfl
  | cons x xs ih =>
    simp only [List.cons_append, List.foldlM_cons]
    cases hfx : f b x with
    | error err => rfl
    | ok b1 =>
      exact ih b1

theorem foldlM_stall_except {α β ε : Type} (f : β → α → Except ε β) (l : List α)
    (b : β) (h : ∀ x ∈ l, f b x = .ok b) : l.foldlM f b = .ok b := by
  induction l with
  | nil => rfl
  | cons x xs ih =>
    simp only [List.foldlM_cons, h x (List.mem_cons_self x xs)]
    exact ih (fun y hy => h y (List.mem_cons_of_mem x hy))

theorem except_bind_ok {α β ε : Type} (a : α) (f : α → Except ε β) :
    (Except.ok a : Except ε α).bind f = f a := rfl

theorem except_bind_error {α β ε : Type} (e : ε) (f : α → Except ε β) :
    (Except.error e : Except ε α).bind f = .error e := rfl

theorem readLoop_concat (cs rest : List (List Nat)) (h : ∀ c ∈ cs, c ≠ []) :
    readLoop (cs ++ [] :: rest) = cs.flatten := by
  induction cs with
  | nil => rfl
  | cons c cs2 ih =>
    simp only [List.cons_append, readLoop, List.append_eq]
    have hne : c.isEmpty = false := by
      have hc := h c (List.mem_cons_self c cs2)
      cases c with
      | nil => exact absurd rfl hc
      | cons a l => rfl
    rw [hne]
    simp only [Bool.false_eq_true, if_false, List.flatten_cons]
    rw [ih (fun x hx => h x (List.mem_cons_of_mem c hx))]

/-- C8: a download task whose local destination path already exists is a
no-op: the task performs zero network requests, leaves the file store
unchanged, and returns normally (a skip, not an error). -/
theorem c8_existing_path_skips (st : FileStore) (net : NetOracle) (link dest : String)
    (h : (st.map Prod.fst).contains dest = true) :
    _download st net (link, dest) = (st, []) := by
  unfold _download
  simp only [h, if_true]

theorem c8_existing_path_skips_witness :
    _download [("/out/a.h5", [7, 7])] (fun _ => [[1], []])
      ("https://example.com/a.h5", "/out/a.h5") = ([("/out/a.h5", [7, 7])], []) :=
  c8_existing_path_skips _ _ _ _ (by decide)

/-- C9: when the response reads for a fresh download are a sequence of
non-empty chunks followed by an empty chunk, the read loop stops at the
empty read and the file written at dest is exactly the concatenation of
the non-empty chunks in order. -/
theorem c9_chunk_concat (st : FileStore) (net : NetOracle) (link dest : String)
    (cs rest : List (List Nat))
    (hne : (st.map Prod.fst).contains dest = false)
    (hnet : net link = cs ++ [] :: rest)
    (hcs : ∀ c ∈ cs, c ≠ []) :
    _download st net (link, dest) = (st ++ [(dest, cs.flatten)], [link]) := by
  unfold _download
  simp only [hne, Bool.false_eq_true, if_false]
  rw [hnet, readLoop_concat _ _ hcs]

theorem c9_chunk_concat_witness :
    _download [] (fun _ => [[1, 2], [3], []])
      ("https://example.com/a.h5", "/out/a.h5") =
      ([("/out/a.h5", [1, 2, 3])], ["https://example.com/a.h5"]) := by
  have h := c9_chunk_concat [] (fun _ => [[1, 2], [3], []])
    "https://example.com/a.h5" "/out/a.h5" [[1, 2], [3]] []
    (by decide) (by rfl) (by decide)
  simpa using h

/-- C10: with start_date after end_date, the day-URL list is empty and the
public download operation touches no oracle (the result is the same fixed
value for every listing, metadata and network collaborator): it produces no
tasks, changes nothing, and returns normally. -/
theorem c10_inverted_range (s e : Nat) (h : e < s) :
    _create_day_urls s e = [] ∧
    ∀ (files : List String) (xmlCoords : CoordsOracle) (L : ListingOracle)
      (net : NetOracle) (dlSt : FileStore) (bbox : List ℚ) (output_dir : String),
      download files xmlCoords L net dlSt s e bbox output_dir = .ok (dlSt, []) := by
  have hnil : _create_day_urls s e = [] := by
    rw [createDayUrls_eq]
    unfold nSteps
    rw [if_neg (by omega)]
    rfl
  refine ⟨hnil, ?_⟩
  intro files xmlCoords L net dlSt bbox output_dir
  unfold download selectLinks
  rw [hnil]
  rfl

theorem c10_inverted_range_witness :
    _create_day_urls (mkDatetime 2022 1 2 0 0 0) (mkDatetime 2022 1 1 0 0 0) = [] ∧
    download [] (fun _ => none) (fun _ => []) (fun _ => []) []
      (mkDatetime 2022 1 2 0 0 0) (mkDatetime 2022 1 1 0 0 0) [] "/out" = .ok ([], []) := by
  have h := c10_inverted_range (mkDatetime 2022 1 2 0 0 0) (mkDatetime 2022 1 1 0 0 0)
    (by decide)
  exact ⟨h.1, h.2 [] (fun _ => none) (fun _ => []) (fun _ => []) [] [] "/out"⟩

/-- C1 (amended): with start ≤ end, _create_day_urls yields one listing URL
per calendar day, in calendar order, for the (end − start) div 86400 + 1
consecutive calendar days beginning at start's calendar date; the last of
those is end's calendar date exactly when start's time of day is at most
end's time of day (a start time later in the day than the end time drops
end's calendar date); over midnight endpoints 2022-01-29 to 2022-02-02 it
yields exactly the five dates 2022.01.29 through 2022.02.02 inclusive. -/
theorem c1_day_url_generation :
    (∀ s e : Nat, s ≤ e →
      _create_day_urls s e =
        (List.range ((e - s) / 86400 + 1)).map (fun k => dayUrlOfDay (s / 86400 + k))) ∧
    (∀ s e : Nat, s ≤ e →
      (s / 86400 + (e - s) / 86400 = e / 86400 ↔ s % 86400 ≤ e % 86400)) ∧
    _create_day_urls (mkDatetime 2022 1 29 0 0 0) (mkDatetime 2022 2 2 0 0 0) =
      [pyUrljoin _BASE_CLOUD_URL "2022.01.29/", pyUrljoin _BASE_CLOUD_URL "2022.01.30/",
        pyUrljoin _BASE_CLOUD_URL "2022.01.31/", pyUrljoin _BASE_CLOUD_URL "2022.02.01/",
        pyUrljoin _BASE_CLOUD_URL "2022.02.02/"] := by
  refine ⟨?_, ?_, ?_⟩
  · intro s e h
    rw [createDayUrls_eq]
    unfold nSteps
    rw [if_pos h]
  · intro s e h
    omega
  · rw [createDayUrls_eq]
    decide

theorem c1_day_url_generation_witness :
    _create_day_urls (mkDatetime 2022 1 29 23 0 0) (mkDatetime 2022 2 2 1 0 0) =
      (List.range ((mkDatetime 2022 2 2 1 0 0 - mkDatetime 2022 1 29 23 0 0) / 86400 + 1)).map
        (fun k => dayUrlOfDay (mkDatetime 2022 1 29 23 0 0 / 86400 + k)) ∧
    (mkDatetime 2022 1 29 23 0 0 / 86400 +
        (mkDatetime 2022 2 2 1 0 0 - mkDatetime 2022 1 29 23 0 0) / 86400 =
        mkDatetime 2022 2 2 1 0 0 / 86400 ↔
      mkDatetime 2022 1 29 23 0 0 % 86400 ≤ mkDatetime 2022 2 2 1 0 0 % 86400) :=
  ⟨c1_day_url_generation.1 (mkDatetime 2022 1 29 23 0 0) (mkDatetime 2022 2 2 1 0 0)
      (by decide),
    c1_day_url_generation.2.1 (mkDatetime 2022 1 29 23 0 0) (mkDatetime 2022 2 2 1 0 0)
      (by decide)⟩

/-- C1 counterexample: with start 2022-01-29T23:00:00 and end
2022-02-02T01:00:00 (start ≤ end, both partial-day times), the generated
list has only four entries and the listing URL of end's calendar date
2022.02.02 is absent, so day generation is not inclusive of both endpoints'
calendar dates for every start ≤ end. -/
theorem c1_counterexample :
    mkDatetime 2022 1 29 23 0 0 ≤ mkDatetime 2022 2 2 1 0 0 ∧
    (_create_day_urls (mkDatetime 2022 1 29 23 0 0) (mkDatetime 2022 2 2 1 0 0)).length = 4 ∧
    pyUrljoin _BASE_CLOUD_URL "2022.02.02/" ∉
      _create_day_urls (mkDatetime 2022 1 29 23 0 0) (mkDatetime 2022 2 2 1 0 0) ∧
    civilFromDays (mkDatetime 2022 2 2 1 0 0 / 86400) = (2022, 2, 2) := by
  refine ⟨by decide, ?_, ?_, by decide⟩
  · rw [createDayUrls_eq]
    decide
  · rw [createDayUrls_eq]
    decide

/-- C3 counterexample: the string ECOSTRESS_L2_CLOUD_00000_000_20221301T...
matches the digit pattern with month group 13, and parse raises ValueError
(the datetime constructor rejects month 13) instead of returning either a
timestamp or the no-match sentinel: parse does not return the sentinel on
every non-convention string and can raise. -/
theorem c3_counterexample :
    _parse_datetime_from_file_name
      "ECOSTRESS_L2_CLOUD_00000_000_20221301T000000_0601_01.h5" = .error .valueError := by
  rfl

/-- C3 (amended): for every filename written in the naming convention whose
date and time digit groups are a valid calendar date and clock time, parse
returns exactly the datetime of the encoded digits; for every string the
pattern does not match, parse returns the None sentinel; but a string that
matches the digit pattern with calendar- or clock-invalid groups makes
parse raise ValueError. -/
theorem c3_parse_behaviour :
    (∀ orbit scene y mo d h mi s build ver : Nat,
      orbit < 10 ^ 5 → scene < 10 ^ 3 → y < 10 ^ 4 → mo < 10 ^ 2 → d < 10 ^ 2 →
      h < 10 ^ 2 → mi < 10 ^ 2 → s < 10 ^ 2 → build < 10 ^ 4 → ver < 10 ^ 2 →
      dtValid y mo d h mi s →
      _parse_datetime_from_file_name (mkConventionName orbit scene y mo d h mi s build ver) =
        .ok (some (mkDatetime y mo d h mi s))) ∧
    (∀ name : String, matchFileRe name = none →
      _parse_datetime_from_file_name name = .ok none) ∧
    (∀ orbit scene y mo d h mi s build ver : Nat,
      orbit < 10 ^ 5 → scene < 10 ^ 3 → y < 10 ^ 4 → mo < 10 ^ 2 → d < 10 ^ 2 →
      h < 10 ^ 2 → mi < 10 ^ 2 → s < 10 ^ 2 → build < 10 ^ 4 → ver < 10 ^ 2 →
      ¬ dtValid y mo d h mi s →
      _parse_datetime_from_file_name (mkConventionName orbit scene y mo d h mi s build ver) =
        .error .valueError) := by
  refine ⟨?_, ?_, ?_⟩
  · intro orbit scene y mo d h mi s build ver hb1 hb2 hb3 hb4 hb5 hb6 hb7 hb8 hb9 hb10 hv
    unfold _parse_datetime_from_file_name
    rw [matchFileRe_convention orbit scene y mo d h mi s build ver
      hb1 hb2 hb3 hb4 hb5 hb6 hb7 hb8 hb9 hb10]
    simp only []
    unfold mkDatetimeChecked
    rw [if_pos hv]
    rfl
  · intro name hm
    unfold _parse_datetime_from_file_name
    rw [hm]
  · intro orbit scene y mo d h mi s build ver hb1 hb2 hb3 hb4 hb5 hb6 hb7 hb8 hb9 hb10 hv
    unfold _parse_datetime_from_file_name
    rw [matchFileRe_convention orbit scene y mo d h mi s build ver
      hb1 hb2 hb3 hb4 hb5 hb6 hb7 hb8 hb9 hb10]
    simp only []
    unfold mkDatetimeChecked
    rw [if_neg hv]
    rfl

theorem c3_parse_behaviour_witness :
    _parse_datetime_from_file_name (mkConventionName 19843 18 2022 1 5 1 34 9 601 1) =
      .ok (some (mkDatetime 2022 1 5 1 34 9)) ∧
    _parse_datetime_from_file_name
      "ECOSTRESS_L2_CLOUD_19843_018_20220105T013409_0601_01.h5.xml" = .ok none ∧
    _parse_datetime_from_file_name (mkConventionName 0 0 2022 13 1 0 0 0 601 1) =
      .error .valueError :=
  ⟨c3_parse_behaviour.1 19843 18 2022 1 5 1 34 9 601 1 (by decide) (by decide) (by decide)
      (by decide) (by decide) (by decide) (by decide) (by decide) (by decide) (by decide)
      (by decide),
    c3_parse_behaviour.2.1 "ECOSTRESS_L2_CLOUD_19843_018_20220105T013409_0601_01.h5.xml"
      (by rfl),
    c3_parse_behaviour.2.2 0 0 2022 13 1 0 0 0 601 1 (by decide) (by decide) (by decide)
      (by decide) (by decide) (by decide) (by decide) (by decide) (by decide) (by decide)
      (by decide)⟩

/-- C2: a candidate href survives the temporal step of the selection loop
exactly when it parses to a timestamp t with start ≤ t ≤ end (inclusive,
exact datetime comparison): then and only then the spatial test runs and
decides membership; an href with no parseable timestamp, or whose timestamp
lies outside the range, is discarded before any metadata access. -/
theorem c2_temporal_step :
    (∀ (files : List String) (xmlCoords : CoordsOracle) (s e : Nat) (bbox : List ℚ)
      (day_url : String) (acc : List String) (file_url : String) (t : Nat),
      _parse_datetime_from_file_name file_url = .ok (some t) → s ≤ t → t ≤ e →
      processFile files xmlCoords s e bbox day_url acc file_url =
        match _overlaps_bbox files xmlCoords bbox (pyUrljoin day_url file_url ++ ".xml") with
        | .error err => .error err
        | .ok b => .ok (if b then acc ++ [pyUrljoin day_url file_url] else acc)) ∧
    (∀ (files : List String) (xmlCoords : CoordsOracle) (s e : Nat) (bbox : List ℚ)
      (day_url : String) (acc : List String) (file_url : String),
      _parse_datetime_from_file_name file_url = .ok none →
      processFile files xmlCoords s e bbox day_url acc file_url = .ok acc) ∧
    (∀ (files : List String) (xmlCoords : CoordsOracle) (s e : Nat) (bbox : List ℚ)
      (day_url : String) (acc : List String) (file_url : String) (t : Nat),
      _parse_datetime_from_file_name file_url = .ok (some t) → ¬ (s ≤ t ∧ t ≤ e) →
      processFile files xmlCoords s e bbox day_url acc file_url = .ok acc) := by
  refine ⟨?_, ?_, ?_⟩
  · intro files xmlCoords s e bbox day_url acc file_url t hp hs he
    unfold processFile
    simp only [hp]
    rw [if_pos ⟨hs, he⟩]
  · intro files xmlCoords s e bbox day_url acc file_url hp
    unfold processFile
    simp only [hp]
  · intro files xmlCoords s e bbox day_url acc file_url t hp hn
    unfold processFile
    simp only [hp]
    rw [if_neg hn]

theorem c2_temporal_step_witness :
    processFile [] (fun _ => none) (mkDatetime 2022 1 5 10 0 0) (mkDatetime 2022 1 6 17 0 0)
      [0, 0, 1, 1] (pyUrljoin _BASE_CLOUD_URL "2022.01.06/") []
      "ECOSTRESS_L2_CLOUD_19858_016_20220106T004717_0601_01.h5" = .error .typeError ∧
    processFile [] (fun _ => none) (mkDatetime 2022 1 5 10 0 0) (mkDatetime 2022 1 6 17 0 0)
      [0, 0, 1, 1] (pyUrljoin _BASE_CLOUD_URL "2022.01.06/") []
      "ECOSTRESS_L2_CLOUD_19858_016_20220106T004717_0601_01.h5.xml" = .ok [] ∧
    processFile [] (fun _ => none) (mkDatetime 2022 1 5 10 0 0) (mkDatetime 2022 1 6 17 0 0)
      [0, 0, 1, 1] (pyUrljoin _BASE_CLOUD_URL "2022.01.06/") []
      "ECOSTRESS_L2_CLOUD_19872_026_20220106T230842_0601_01.h5" = .ok [] :=
  ⟨(c2_temporal_step.1 [] (fun _ => none) (mkDatetime 2022 1 5 10 0 0)
      (mkDatetime 2022 1 6 17 0 0) [0, 0, 1, 1] (pyUrljoin _BASE_CLOUD_URL "2022.01.06/") []
      "ECOSTRESS_L2_CLOUD_19858_016_20220106T004717_0601_01.h5"
      (mkDatetime 2022 1 6 0 47 17) (by rfl) (by decide) (by decide)).trans (by rfl),
    c2_temporal_step.2.1 [] (fun _ => none) (mkDatetime 2022 1 5 10 0 0)
      (mkDatetime 2022 1 6 17 0 0) [0, 0, 1, 1] (pyUrljoin _BASE_CLOUD_URL "2022.01.06/") []
      "ECOSTRESS_L2_CLOUD_19858_016_20220106T004717_0601_01.h5.xml" (by rfl),
    c2_temporal_step.2.2 [] (fun _ => none) (mkDatetime 2022 1 5 10 0 0)
      (mkDatetime 2022 1 6 17 0 0) [0, 0, 1, 1] (pyUrljoin _BASE_CLOUD_URL "2022.01.06/") []
      "ECOSTRESS_L2_CLOUD_19872_026_20220106T230842_0601_01.h5"
      (mkDatetime 2022 1 6 23 8 42) (by rfl) (by decide)⟩

/-- C7: when a candidate that passed the temporal filter hits a failing
metadata step, the error is not caught: the inner loop, the day loop and
the whole download call return that error, for every remainder of the day
page and every remaining day alike, and no task list is produced. -/
theorem c7_metadata_failure_aborts (files : List String) (xmlCoords : CoordsOracle)
    (L : ListingOracle) (net : NetOracle) (dlSt : FileStore) (s e : Nat) (bbox : List ℚ)
    (output_dir day_url : String) (rest_days : List String) (pre post : List String)
    (bad : String) (t : Nat) (err : PyError)
    (hdays : _create_day_urls s e = day_url :: rest_days)
    (hlinks : L day_url = pre ++ bad :: post)
    (hpre : ∀ l ∈ pre, _parse_datetime_from_file_name l = .ok none)
    (hparse : _parse_datetime_from_file_name bad = .ok (some t))
    (hs : s ≤ t) (he : t ≤ e)
    (hov : _overlaps_bbox files xmlCoords bbox (pyUrljoin day_url bad ++ ".xml") =
      .error err) :
    selectLinks files xmlCoords L s e bbox = .error err ∧
    download files xmlCoords L net dlSt s e bbox output_dir = .error err := by
  have hday : processDay files xmlCoords L s e bbox [] day_url = .error err := by
    unfold processDay
    rw [hlinks, foldlM_append_except]
    have hpre2 : pre.foldlM (processFile files xmlCoords s e bbox day_url) [] = .ok [] := by
      refine foldlM_stall_except _ _ _ (fun x hx => ?_)
      have hx2 := hpre x hx
      unfold processFile
      simp only [hx2]
    rw [hpre2, except_bind_ok]
    have hbad : processFile files xmlCoords s e bbox day_url [] bad = .error err := by
      unfold processFile
      simp only [hparse]
      rw [if_pos ⟨hs, he⟩, hov]
    simp only [List.foldlM_cons, hbad]
    rfl
  have hsel : selectLinks files xmlCoords L s e bbox = .error err := by
    unfold selectLinks
    rw [hdays]
    simp only [List.foldlM_cons, hday]
    rfl
  refine ⟨hsel, ?_⟩
  unfold download
  rw [hsel]
  rfl

theorem c7_metadata_failure_aborts_witness :
    download [] (fun _ => none)
      (fun _ => ["ECOSTRESS_L2_CLOUD_19850_014_20220105T122719_0601_01.h5"])
      (fun _ => []) [] (mkDatetime 2022 1 5 0 0 0) (mkDatetime 2022 1 5 23 59 59)
      [0, 0, 1, 1] "/out" = .error .typeError :=
  (c7_metadata_failure_aborts [] (fun _ => none)
    (fun _ => ["ECOSTRESS_L2_CLOUD_19850_014_20220105T122719_0601_01.h5"])
    (fun _ => []) [] (mkDatetime 2022 1 5 0 0 0) (mkDatetime 2022 1 5 23 59 59)
    [0, 0, 1, 1] "/out" (pyUrljoin _BASE_CLOUD_URL "2022.01.05/") [] [] []
    "ECOSTRESS_L2_CLOUD_19850_014_20220105T122719_0601_01.h5"
    (mkDatetime 2022 1 5 12 27 19) .typeError
    (by rw [createDayUrls_eq]; decide) (by rfl) (by simp) (by rfl)
    (by decide) (by decide) (by rfl)).2

/-- C4: metadata cache behaviour at a concrete URL, one conjunct per cache
state.  With the cache file present the cached document is parsed and no
fetch can occur.  With the cache file absent the call raises TypeError:
src line 94 invokes the public four-parameter download method with a single
tuple (self.download((xml_url, file_path))) instead of self._download, so
the promised fetch-into-cache-then-parse behaviour never happens. -/
theorem c4_cache_miss_type_error :
    _parse_bbox_from_xml [] (fun _ => some (1, 2, 3, 4))
      "https://example.com/xml_data.xml" = .error .typeError ∧
    _parse_bbox_from_xml [pyPathJoin _XML_DIR "xml_data.xml"] (fun _ => some (1, 2, 3, 4))
      "https://example.com/xml_data.xml" = .ok [(1, 2), (3, 2), (3, 4), (1, 4)] := by
  constructor
  · rfl
  · rfl

/-- C5: for every cached metadata document carrying bounding coordinates
west, north, east, south, the derived rectangle has corners exactly
(west, north), (east, north), (east, south), (west, south); instantiated at
the concrete coordinates of the claim. -/
theorem c5_bbox_corners :
    (∀ (files : List String) (xmlCoords : CoordsOracle) (xml_url : String)
      (west north east south : ℚ),
      files.contains (pyPathJoin _XML_DIR (pyBasename xml_url)) = true →
      xmlCoords (pyPathJoin _XML_DIR (pyBasename xml_url)) = some (west, north, east, south) →
      _parse_bbox_from_xml files xmlCoords xml_url =
        .ok [(west, north), (east, north), (east, south), (west, south)]) ∧
    _parse_bbox_from_xml [pyPathJoin _XML_DIR "xml_data.xml"]
      (fun _ => some (-122.778572, 38.030651, -117.125183, 32.858040))
      "https://example.com/xml_data.xml" =
      .ok [(-122.778572, 38.030651), (-117.125183, 38.030651),
        (-117.125183, 32.858040), (-122.778572, 32.858040)] := by
  constructor
  · intro files xmlCoords xml_url west north east south hc ho
    unfold _parse_bbox_from_xml
    simp only [hc, ho, if_true]
  · rfl

theorem c5_bbox_corners_witness :
    _parse_bbox_from_xml [pyPathJoin _XML_DIR "doc.h5.xml"]
      (fun _ => some (10, 20, 30, 40)) "https://example.com/doc.h5.xml" =
      .ok [(10, 20), (30, 20), (30, 40), (10, 40)] :=
  c5_bbox_corners.1 [pyPathJoin _XML_DIR "doc.h5.xml"] (fun _ => some (10, 20, 30, 40))
    "https://example.com/doc.h5.xml" 10 20 30 40 (by decide) (by rfl)

theorem intersects_minmax (a b : BoundingBox) :
    intersects a b =
      decide (min a.minLon a.maxLon ≤ max b.minLon b.maxLon ∧
        min b.minLon b.maxLon ≤ max a.minLon a.maxLon ∧
        min a.minLat a.maxLat ≤ max b.minLat b.maxLat ∧
        min b.minLat b.maxLat ≤ max a.minLat a.maxLat) := by
  unfold intersects polyIntersects
  simp only [rect_bboxToPoly]

/-- C6: the box-intersection test is symmetric; every box intersects
itself; two well-formed boxes sharing only the boundary edge where one's
maxLon equals the other's minLon intersect; a degenerate zero-area box
intersects every well-formed box whose closed region contains its point;
and on well-formed boxes the test decides exactly closed-region overlap:
true iff the two regions share some point. -/
theorem c6_intersects_props :
    (∀ a b : BoundingBox, intersects a b = intersects b a) ∧
    (∀ a : BoundingBox, intersects a a = true) ∧
    (∀ a b : BoundingBox, bboxWF a → bboxWF b → a.maxLon = b.minLon →
      a.minLat ≤ b.maxLat → b.minLat ≤ a.maxLat → intersects a b = true) ∧
    (∀ (p : ℚ × ℚ) (b : BoundingBox), bboxWF b → inRegion b p →
      intersects (pointBox p) b = true) ∧
    (∀ a b : BoundingBox, bboxWF a → bboxWF b →
      (intersects a b = true ↔ ∃ p : ℚ × ℚ, inRegion a p ∧ inRegion b p)) := by
  refine ⟨?_, ?_, ?_, ?_, ?_⟩
  · intro a b
    rw [intersects_minmax, intersects_minmax]
    exact decide_eq_decide.mpr (by tauto)
  · intro a
    rw [intersects_minmax]
    exact decide_eq_true ⟨min_le_max, min_le_max, min_le_max, min_le_max⟩
  · intro a b ha hb hlon hla hlb
    obtain ⟨ha1, ha2⟩ := ha
    obtain ⟨hb1, hb2⟩ := hb
    rw [intersects_minmax, min_eq_left ha1, max_eq_right ha1, min_eq_left ha2,
      max_eq_right ha2, min_eq_left hb1, max_eq_right hb1, min_eq_left hb2,
      max_eq_right hb2]
    refine decide_eq_true ⟨?_, ?_, ?_, ?_⟩ <;> linarith
  · intro p b hb hin
    obtain ⟨hb1, hb2⟩ := hb
    obtain ⟨h1, h2, h3, h4⟩ := hin
    rw [intersects_minmax]
    simp only [pointBox, min_self, max_self]
    rw [min_eq_left hb1, max_eq_right hb1, min_eq_left hb2, max_eq_right hb2]
    refine decide_eq_true ⟨?_, ?_, ?_, ?_⟩ <;> linarith
  · intro a b ha hb
    obtain ⟨ha1, ha2⟩ := ha
    obtain ⟨hb1, hb2⟩ := hb
    rw [intersects_minmax, min_eq_left ha1, max_eq_right ha1, min_eq_left ha2,
      max_eq_right ha2, min_eq_left hb1, max_eq_right hb1, min_eq_left hb2,
      max_eq_right hb2]
    constructor
    · intro hd
      obtain ⟨h1, h2, h3, h4⟩ := of_decide_eq_true hd
      refine ⟨(max a.minLon b.minLon, max a.minLat b.minLat),
        ⟨le_max_left _ _, max_le ha1 h2, le_max_left _ _, max_le ha2 h4⟩,
        ⟨le_max_right _ _, max_le h1 hb1, le_max_right _ _, max_le h3 hb2⟩⟩
    · rintro ⟨p, ⟨hpa1, hpa2, hpa3, hpa4⟩, ⟨hpb1, hpb2, hpb3, hpb4⟩⟩
      refine decide_eq_true ⟨?_, ?_, ?_, ?_⟩ <;> linarith

theorem c6_intersects_props_witness :
    intersects ⟨0, 0, 2, 2⟩ ⟨1, 1, 3, 3⟩ = intersects ⟨1, 1, 3, 3⟩ ⟨0, 0, 2, 2⟩ ∧
    intersects ⟨0, 0, 2, 2⟩ ⟨0, 0, 2, 2⟩ = true ∧
    intersects ⟨0, 0, 1, 1⟩ ⟨1, 0, 2, 1⟩ = true ∧
    intersects (pointBox (1, 1)) ⟨0, 0, 2, 2⟩ = true ∧
    (intersects ⟨0, 0, 2, 2⟩ ⟨1, 1, 3, 3⟩ = true ↔
      ∃ p : ℚ × ℚ, inRegion ⟨0, 0, 2, 2⟩ p ∧ inRegion ⟨1, 1, 3, 3⟩ p) :=
  ⟨c6_intersects_props.1 ⟨0, 0, 2, 2⟩ ⟨1, 1, 3, 3⟩,
    c6_intersects_props.2.1 ⟨0, 0, 2, 2⟩,
    c6_intersects_props.2.2.1 ⟨0, 0, 1, 1⟩ ⟨1, 0, 2, 1⟩ (by constructor <;> norm_num)
      (by constructor <;> norm_num) (by norm_num) (by norm_num) (by norm_num),
    c6_intersects_props.2.2.2.1 (1, 1) ⟨0, 0, 2, 2⟩ (by constructor <;> norm_num)
      (by refine ⟨?_, ?_, ?_, ?_⟩ <;> norm_num),
    c6_intersects_props.2.2.2.2 ⟨0, 0, 2, 2⟩ ⟨1, 1, 3, 3⟩ (by constructor <;> norm_num)
      (by constructor <;> norm_num)⟩

end EcostressCloud
